import Mathlib

/-!
Verification of the byzved Telegram ingestion bot against its design
specification.  The TypeScript sources (src/supabase.ts, src/embeddings.ts,
the bot/webhook ingestion handlers) are shallowly embedded as pure Lean
functions; the Supabase client is modelled as a function over an explicit
database state together with an injected fault describing the outcome of
the network call, mirroring the schema of migrations/001 (UNIQUE
constraints on conversations.message_id and opt_out_users.user_id).

JavaScript numbers carried inside embedding vectors are never computed on
by the code under verification (they are only passed through), so the
scalar type of a vector is modelled by an arbitrary decidable-equality
type, here Int.
-/

namespace Byzved

/-- Scalar entry of an embedding vector.  The code never performs
arithmetic on these values, it only moves them, so floating point is
modelled by an opaque decidable scalar. -/
abbrev Scalar := Int

/-- Severity levels of src/logger.ts. -/
inductive LogLevel where
  | debug
  | info
  | warn
  | error
deriving DecidableEq, Repr

/-- One emitted log line: severity and the (static) message text. -/
structure LogEntry where
  level : LogLevel
  msg : String
deriving DecidableEq, Repr

/-- A persisted row of the conversations table (src/types.ts shape used by
supabase.ts and the ingestion handlers; columns per migrations/001). -/
structure ConversationRecord where
  message_id : Int
  text : String
  user_id : Int
  group_id : Int
  timestamp : String
  vector : Option (List Scalar)
  user_name : Option String
  user_first_name : Option String
  user_last_name : Option String
deriving DecidableEq, Repr

/-- A persisted row of the opt_out_users table. -/
structure OptOutRow where
  user_id : Int
  opted_out_at : String
deriving DecidableEq, Repr

/-- The durable store: the two tables of migrations/001. -/
structure Db where
  conversations : List ConversationRecord
  opt_out_users : List OptOutRow
deriving DecidableEq, Repr

/-- A PostgREST error object as surfaced by the Supabase client
(`error.code`, `error.message`). -/
structure PgError where
  code : String
  message : String
deriving DecidableEq, Repr

/-- A thrown JavaScript exception, as inspected by catch blocks
(`err?.code ?? err?.status`, `err?.message`). -/
structure Exn where
  code : Option String
  message : String
deriving DecidableEq, Repr

/-- Outcome of one Supabase client call, injected by the environment:
the call succeeds normally, the client returns an error response, or the
awaited promise rejects (throws). -/
inductive StoreFault where
  | ok
  | errResp (code : String) (message : String)
  | thrown (message : String)
deriving DecidableEq, Repr

/-- Result of a client insert call into a table: either a response
`\x7b data, error \x7d` together with the updated store, or a thrown
exception. -/
inductive InsertResult where
  | resp (data : List ConversationRecord) (error : Option PgError) (newDb : Db)
  | exn (e : Exn)
deriving Repr

/-- Model of `client.from('conversations').insert([record]).select()`.
On the normal path the store enforces `message_id BIGINT UNIQUE NOT NULL`
(migrations/001): a second row with an existing message_id is rejected
with the Postgres unique-violation error 23505 and the table is
unchanged. -/
def clientInsertConversations (db : Db) (rec : ConversationRecord)
    (fault : StoreFault) : InsertResult :=
  match fault with
  | .thrown m => .exn ⟨none, m⟩
  | .errResp c m => .resp [] (some ⟨c, m⟩) db
  | .ok =>
    if db.conversations.any (fun r => r.message_id == rec.message_id) then
      .resp [] (some ⟨"23505",
        "duplicate key value violates unique constraint"⟩) db
    else
      .resp [rec] none
        { db with conversations := db.conversations ++ [rec] }

/-- Result of a `.select(...).single()` call against opt_out_users. -/
inductive SelectSingleResult where
  | resp (data : Option OptOutRow) (error : Option PgError)
  | exn (e : Exn)
deriving Repr

/-- Model of
`client.from('opt_out_users').select('id').eq('user_id', userId).single()`.
With zero matching rows, `.single()` yields the PostgREST error PGRST116
and null data — the normal absent case. -/
def clientSelectOptOutSingle (db : Db) (userId : Int)
    (fault : StoreFault) : SelectSingleResult :=
  match fault with
  | .thrown m => .exn ⟨none, m⟩
  | .errResp c m => .resp none (some ⟨c, m⟩)
  | .ok =>
    match db.opt_out_users.find? (fun r => r.user_id == userId) with
    | some row => .resp (some row) none
    | none => .resp none (some ⟨"PGRST116", "no rows returned"⟩)

/-- Result of a client insert into opt_out_users. -/
inductive OptOutInsertResult where
  | resp (error : Option PgError) (newDb : Db)
  | exn (e : Exn)
deriving Repr

/-- Model of `client.from('opt_out_users').insert([...])`.  The store
enforces `user_id BIGINT UNIQUE NOT NULL`: a second entry for the same
sender is rejected with error 23505. -/
def clientInsertOptOut (db : Db) (userId : Int) (now : String)
    (fault : StoreFault) : OptOutInsertResult :=
  match fault with
  | .thrown m => .exn ⟨none, m⟩
  | .errResp c m => .resp (some ⟨c, m⟩) db
  | .ok =>
    if db.opt_out_users.any (fun r => r.user_id == userId) then
      .resp (some ⟨"23505",
        "duplicate key value violates unique constraint"⟩) db
    else
      .resp none
        { db with opt_out_users := db.opt_out_users ++ [⟨userId, now⟩] }

/-- Result of a client delete call: response carries `count` and `error`;
`count` is populated only when the call requested a count option, which
`clearUserMessages` does not. -/
inductive DeleteResult where
  | resp (count : Option Int) (error : Option PgError) (newDb : Db)
  | exn (e : Exn)
deriving Repr

/-- Model of `client.from('conversations').delete().eq('user_id', userId)`.
The builder is invoked without a `count` option, so per the client API the
response's `count` field is null even though the rows are removed;
`requestCount` records whether the caller asked for a count. -/
def clientDeleteConversations (db : Db) (userId : Int)
    (requestCount : Bool) (fault : StoreFault) : DeleteResult :=
  match fault with
  | .thrown m => .exn ⟨none, m⟩
  | .errResp c m => .resp none (some ⟨c, m⟩) db
  | .ok =>
    let removed := db.conversations.filter (fun r => r.user_id == userId)
    let kept := db.conversations.filter (fun r => !(r.user_id == userId))
    .resp (if requestCount then some (removed.length : Int) else none) none
      { db with conversations := kept }

/-! ## Timestamp serialization

`new Date(seconds * 1000).toISOString()` renders an epoch instant as a
UTC ISO-8601 string.  Modelled as a pure function of the epoch
milliseconds via civil-from-days calendar arithmetic. -/

/-- Left-pad the decimal rendering of a nonnegative integer to `w`
digits with zeros. -/
def padNum (w : Nat) (n : Int) : String :=
  let s := toString n.toNat
  let k := s.length
  (String.mk (List.replicate (w - k) '0')) ++ s

/-- Gregorian date (year, month, day) of a day number counted from
1970-01-01 (civil-from-days). -/
def civilFromDays (z0 : Int) : Int × Int × Int :=
  let z := z0 + 719468
  let era := z.fdiv 146097
  let doe := z - era * 146097
  let yoe := (doe - doe / 1460 + doe / 36524 - doe / 146096) / 365
  let y := yoe + era * 400
  let doy := doe - (365 * yoe + yoe / 4 - yoe / 100)
  let mp := (5 * doy + 2) / 153
  let d := doy - (153 * mp + 2) / 5 + 1
  let m := mp + (if mp < 10 then 3 else -9)
  (y + (if m ≤ 2 then 1 else 0), m, d)

/-- `Date.prototype.toISOString` of an epoch-milliseconds instant:
`YYYY-MM-DDTHH:mm:ss.sssZ` in UTC. -/
def toISOString (ms : Int) : String :=
  let day := ms.fdiv 86400000
  let msOfDay := ms - day * 86400000
  let ymd := civilFromDays day
  let hh := msOfDay / 3600000
  let mm := (msOfDay % 3600000) / 60000
  let ss := (msOfDay % 60000) / 1000
  let mmm := msOfDay % 1000
  padNum 4 ymd.1 ++ "-" ++ padNum 2 ymd.2.1 ++ "-" ++ padNum 2 ymd.2.2 ++
    "T" ++ padNum 2 hh ++ ":" ++ padNum 2 mm ++ ":" ++ padNum 2 ss ++
    "." ++ padNum 3 mmm ++ "Z"

/-! ## src/supabase.ts -/

/-- The constructed Supabase client handle; `createClient(url, key)` is
determined by its two arguments. -/
structure SupaClient where
  url : String
  key : String
deriving DecidableEq, Repr

/-- Model of `createClient` from @supabase/supabase-js. -/
def createClient (url key : String) : SupaClient := ⟨url, key⟩

/-- Result of one `initSupabase` call: the returned client, the new value
of the module-level `supabaseClient` variable, and whether `createClient`
ran during this call. -/
structure InitSupabaseOut where
  client : SupaClient
  state : Option SupaClient
  constructed : Bool
deriving DecidableEq, Repr

/-- `initSupabase(url, key)` over the module-level state
`supabaseClient : SupaClient | null`: an already-present client is
returned as is; otherwise a client is constructed and stored. -/
def initSupabase (state : Option SupaClient) (url key : String) :
    InitSupabaseOut :=
  match state with
  | some c => ⟨c, some c, false⟩
  | none =>
    let c := createClient url key
    ⟨c, some c, true⟩

/-- `insertMessage(record)`: inserts into conversations; a client error
response is logged via `logger.error` and yields null; a thrown exception
is caught, logged via `logger.error`, and yields null.  The function
itself never throws (every path is a return), hence the plain — not
exception-carrying — result type.  Returns the (possibly unchanged)
store and the emitted log lines alongside `record | null`. -/
def insertMessage (db : Db) (rec : ConversationRecord)
    (fault : StoreFault) :
    Option ConversationRecord × Db × List LogEntry :=
  match clientInsertConversations db rec fault with
  | .exn _ =>
    (none, db, [⟨.error, "Unexpected error inserting message:"⟩])
  | .resp data err db' =>
    match err with
    | some _ =>
      (none, db, [⟨.error, "Error inserting message into conversations:"⟩])
    | none =>
      (data.head?, db', [⟨.debug, "Message inserted"⟩])

/-- `await insertMessage(...)` as observed by a caller's try/catch: the
promise settles with the function's return value and never rejects,
because every path of `insertMessage` catches and returns. -/
def insertMessageE (db : Db) (rec : ConversationRecord)
    (fault : StoreFault) :
    Except Exn (Option ConversationRecord × Db × List LogEntry) :=
  .ok (insertMessage db rec fault)

/-- `isUserOptedOut(userId)`: selects the sender's opt-out row with
`.single()`.  An error whose code is PGRST116 (zero rows) is the normal
absent case; any other error is logged via `logger.error` and yields
false; a thrown exception is caught, logged, and yields false; otherwise
the result is `!!data`. -/
def isUserOptedOut (db : Db) (userId : Int) (fault : StoreFault) :
    Bool × List LogEntry :=
  match clientSelectOptOutSingle db userId fault with
  | .exn _ =>
    (false, [⟨.error, "Unexpected error checking opt-out:"⟩])
  | .resp data err =>
    match err with
    | some e =>
      if e.code ≠ "PGRST116" then
        (false, [⟨.error, "Error checking opt-out status:"⟩])
      else
        (data.isSome, [])
    | none => (data.isSome, [])

/-- `addUserOptOut(userId)`: inserts an opt_out_users row stamped with
the current time.  Any error response — including the unique-violation
error a second opt-out of the same sender produces — is logged via
`logger.error` and yields false; a thrown exception is caught, logged,
and yields false; success logs via `logger.info` and yields true. -/
def addUserOptOut (db : Db) (userId : Int) (now : String)
    (fault : StoreFault) : Bool × Db × List LogEntry :=
  match clientInsertOptOut db userId now fault with
  | .exn _ =>
    (false, db, [⟨.error, "Unexpected error during opt-out:"⟩])
  | .resp err db' =>
    match err with
    | some _ =>
      (false, db, [⟨.error, "Error adding user to opt-out list:"⟩])
    | none =>
      (true, db', [⟨.info, "User opted out"⟩])

/-- `getMessageCount()`: exact head count of conversations; 0 on an
error response or a thrown exception (`count || 0`). -/
def getMessageCount (db : Db) (fault : StoreFault) :
    Nat × List LogEntry :=
  match fault with
  | .thrown _ =>
    (0, [⟨.error, "Unexpected error getting message count:"⟩])
  | .errResp _ _ =>
    (0, [⟨.error, "Error getting message count:"⟩])
  | .ok => (db.conversations.length, [])

/-- `clearUserMessages(userId)`: deletes the sender's conversations rows.
The delete builder is called without a count option, so the client's
`count` is null on success and the returned value is `count || 0`; an
error response or thrown exception is logged and yields 0 with the store
unchanged. -/
def clearUserMessages (db : Db) (userId : Int) (fault : StoreFault) :
    Int × Db × List LogEntry :=
  match clientDeleteConversations db userId false fault with
  | .exn _ =>
    (0, db, [⟨.error, "Unexpected error clearing messages:"⟩])
  | .resp cnt err db' =>
    match err with
    | some _ =>
      (0, db, [⟨.error, "Error clearing user messages:"⟩])
    | none =>
      (cnt.getD 0, db', [⟨.info, "Cleared messages for user"⟩])

/-! ## src/embeddings.ts -/

/-- The two supported embedding backends. -/
inductive Provider where
  | openai
  | gemini
deriving DecidableEq, Repr

/-- Module-level state of src/embeddings.ts: the two client handles
(modelled by the credential a constructed client holds), the
availability flag and the selected provider. -/
structure EmbeddingsState where
  openaiClient : Option String
  geminiClient : Option String
  embeddingsAvailable : Bool
  embeddingsProvider : Option Provider
deriving DecidableEq, Repr

/-- Which backend constructors `initEmbeddings` actually ran. -/
inductive InitAttempt where
  | tryOpenAI
  | tryGemini
deriving DecidableEq, Repr

/-- The Gemini leg of `initEmbeddings`: runs when OpenAI was absent or
its constructor threw.  On a missing key or a constructor failure the
provider ends `Unavailable` (available = false, provider = null). -/
def tryGeminiInit (geminiKey : Option String) (geminiCtorOk : Bool) :
    EmbeddingsState × List LogEntry × List InitAttempt :=
  match geminiKey with
  | some k =>
    if geminiCtorOk then
      (⟨none, some k, true, some .gemini⟩,
       [⟨.info, "Google Gemini embeddings initialized"⟩], [.tryGemini])
    else
      (⟨none, none, false, none⟩,
       [⟨.warn, "Failed to initialize Gemini:"⟩,
        ⟨.warn, "No embedding provider configured"⟩], [.tryGemini])
  | none =>
    (⟨none, none, false, none⟩,
     [⟨.warn, "No embedding provider configured"⟩], [])

/-- `initEmbeddings(openaiKey?, geminiKey?)`: tries OpenAI first; on a
constructed client it marks the provider active and returns without
touching Gemini; on a missing key or constructor failure it falls
through to Gemini; the whole body is inside try/catch, so the function
is total and never raises.  `openaiCtorOk`/`geminiCtorOk` inject whether
the respective client constructor succeeds or throws. -/
def initEmbeddings (openaiKey geminiKey : Option String)
    (openaiCtorOk geminiCtorOk : Bool) :
    EmbeddingsState × List LogEntry × List InitAttempt :=
  match openaiKey with
  | some k =>
    if openaiCtorOk then
      (⟨some k, none, true, some .openai⟩,
       [⟨.info, "OpenAI embeddings initialized"⟩], [.tryOpenAI])
    else
      let r := tryGeminiInit geminiKey geminiCtorOk
      (r.1, ⟨.warn, "Failed to initialize OpenAI:"⟩ :: r.2.1,
       .tryOpenAI :: r.2.2)
  | none => tryGeminiInit geminiKey geminiCtorOk

/-- `areEmbeddingsAvailable()`. -/
def areEmbeddingsAvailable (st : EmbeddingsState) : Bool :=
  st.embeddingsAvailable

/-- `getEmbeddingsProvider()`: provider name, or the "None" sentinel. -/
def getEmbeddingsProviderLabel (st : EmbeddingsState) : String :=
  match st.embeddingsProvider with
  | some .openai => "OPENAI"
  | some .gemini => "GEMINI"
  | none => "None"

/-- Outcome of one awaited backend embedding request, injected by the
environment: a response carrying a vector, a response lacking the
embedding value (`data[0]?.embedding` or `embedding.values` undefined),
or a rejection (network, quota, malformed response — thrown). -/
inductive BackendOutcome where
  | vec (v : List Scalar)
  | missing
  | exn (message : String)
deriving DecidableEq, Repr

/-- Observable calls the pipeline makes to its collaborators. -/
inductive Effect where
  | privacyLookup (userId : Int)
  | backendEmbedCall (provider : Provider) (text : String)
  | insertCall (rec : ConversationRecord)
deriving DecidableEq, Repr

/-- `generateOpenAIEmbedding(text)`: null without a client (no call);
otherwise one backend call whose rejection is caught, logged via
`logger.error`, and turned into null (`response.data[0]?.embedding ||
null`; a present empty array is truthy in JS and passes through). -/
def generateOpenAIEmbedding (st : EmbeddingsState) (text : String)
    (outcome : BackendOutcome) :
    Option (List Scalar) × List LogEntry × List Effect :=
  match st.openaiClient with
  | none => (none, [], [])
  | some _ =>
    match outcome with
    | .vec v => (some v, [], [.backendEmbedCall .openai text])
    | .missing => (none, [], [.backendEmbedCall .openai text])
    | .exn _ =>
      (none, [⟨.error, "Error generating OpenAI embedding:"⟩],
       [.backendEmbedCall .openai text])

/-- `generateGeminiEmbedding(text)`: same shape against the Gemini
client (`result.embedding.values || null`). -/
def generateGeminiEmbedding (st : EmbeddingsState) (text : String)
    (outcome : BackendOutcome) :
    Option (List Scalar) × List LogEntry × List Effect :=
  match st.geminiClient with
  | none => (none, [], [])
  | some _ =>
    match outcome with
    | .vec v => (some v, [], [.backendEmbedCall .gemini text])
    | .missing => (none, [], [.backendEmbedCall .gemini text])
    | .exn _ =>
      (none, [⟨.error, "Error generating Gemini embedding:"⟩],
       [.backendEmbedCall .gemini text])

/-- Result shape `\x7b text, embedding \x7d` of src/types.ts. -/
structure EmbedResult where
  text : String
  embedding : Option (List Scalar)
deriving DecidableEq, Repr

/-- `generateEmbedding(text)`: when unavailable, returns the absent
result immediately without any backend call; when active, dispatches to
the selected backend inside try/catch, so every failure degrades to an
absent embedding and nothing propagates. -/
def generateEmbedding (st : EmbeddingsState) (text : String)
    (outcome : BackendOutcome) :
    EmbedResult × List LogEntry × List Effect :=
  if st.embeddingsAvailable = false then (⟨text, none⟩, [], [])
  else
    match st.embeddingsProvider with
    | some .openai =>
      let r := generateOpenAIEmbedding st text outcome
      (⟨text, r.1⟩, r.2.1, r.2.2)
    | some .gemini =>
      let r := generateGeminiEmbedding st text outcome
      (⟨text, r.1⟩, r.2.1, r.2.2)
    | none => (⟨text, none⟩, [], [])

/-- `texts.map((text, index) => f(index, text))` — positional map, spelled
out so its index lemmas can be proved by structural induction. -/
def mapWithIndexGo (f : Nat → α → β) : Nat → List α → List β
  | _, [] => []
  | i, x :: xs => f i x :: mapWithIndexGo f (i + 1) xs

/-- Entry point of the positional map at index 0. -/
def mapWithIndex (f : Nat → α → β) (xs : List α) : List β :=
  mapWithIndexGo f 0 xs

/-- Environment of one batch call: the OpenAI bulk response (a rejection
message, or the `response.data` embeddings in request order, possibly
short), whether the Gemini leg fails as a whole, and the per-item Gemini
outcome for each text (null after the per-item catch or a missing
`values`). -/
structure BatchEnv where
  openaiBatch : Except String (List (List Scalar))
  geminiOuterExn : Option String
  geminiItem : String → Option (List Scalar)

/-- `generateBatchOpenAIEmbeddings(texts)`: all-null without a client; a
rejected bulk call is caught and every entry degrades to null; on success
entry `i` is `response.data[i]?.embedding || null`. -/
def generateBatchOpenAIEmbeddings (st : EmbeddingsState)
    (texts : List String) (env : BatchEnv) :
    List EmbedResult × List LogEntry :=
  match st.openaiClient with
  | none => (texts.map (fun t => ⟨t, none⟩), [])
  | some _ =>
    match env.openaiBatch with
    | .error _ =>
      (texts.map (fun t => ⟨t, none⟩),
       [⟨.error, "Error generating batch OpenAI embeddings:"⟩])
    | .ok data =>
      (mapWithIndex (fun i t => ⟨t, data[i]?⟩) texts, [])

/-- `generateBatchGeminiEmbeddings(texts)`: all-null without a client or
when the call fails as a whole; otherwise `Promise.all` maps every text
through a per-item request whose failure is caught to null, and entry `i`
pairs `texts[i]` with `results[i]`. -/
def generateBatchGeminiEmbeddings (st : EmbeddingsState)
    (texts : List String) (env : BatchEnv) :
    List EmbedResult × List LogEntry :=
  match st.geminiClient with
  | none => (texts.map (fun t => ⟨t, none⟩), [])
  | some _ =>
    match env.geminiOuterExn with
    | some _ =>
      (texts.map (fun t => ⟨t, none⟩),
       [⟨.error, "Error generating batch Gemini embeddings:"⟩])
    | none =>
      let results := texts.map env.geminiItem
      (mapWithIndex (fun i t => ⟨t, (results[i]?).getD none⟩) texts, [])

/-- `generateBatchEmbeddings(texts)`: all-null immediately when
unavailable, else dispatch by provider inside try/catch with an all-null
fallthrough. -/
def generateBatchEmbeddings (st : EmbeddingsState) (texts : List String)
    (env : BatchEnv) : List EmbedResult × List LogEntry :=
  if st.embeddingsAvailable = false then
    (texts.map (fun t => ⟨t, none⟩), [])
  else
    match st.embeddingsProvider with
    | some .openai => generateBatchOpenAIEmbeddings st texts env
    | some .gemini => generateBatchGeminiEmbeddings st texts env
    | none => (texts.map (fun t => ⟨t, none⟩), [])

/-! ## Ingestion handler (bot.ts / api/webhook.ts `bot.on('message')`) -/

/-- The sender attached to an update (`ctx.from`). -/
structure TgUser where
  id : Int
  username : Option String
  first_name : Option String
  last_name : Option String
deriving DecidableEq, Repr

/-- The inbound Telegram message (`ctx.message`): id, optional text,
epoch-seconds date. -/
structure TgMessage where
  message_id : Int
  text : Option String
  date : Int
deriving DecidableEq, Repr

/-- The slice of the grammY context the ingestion handler reads. -/
structure Ctx where
  message : Option TgMessage
  fromUser : Option TgUser
  chatId : Option Int
deriving DecidableEq, Repr

/-- The parsed `TelegramMessage` intermediate of the handler
(`new Date(message.date * 1000)` kept as epoch milliseconds). -/
structure TelegramMessage where
  messageId : Int
  text : String
  userId : Int
  groupId : Int
  timestampMs : Int
  userName : Option String
  userFirstName : Option String
  userLastName : Option String
deriving DecidableEq, Repr

/-- The `telegramMessage` construction of the handler. -/
def parseTelegramMessage (m : TgMessage) (text : String) (u : TgUser)
    (chatId : Int) : TelegramMessage :=
  ⟨m.message_id, text, u.id, chatId, m.date * 1000,
   u.username, u.first_name, u.last_name⟩

/-- The Record Builder: the `dbRecord` construction of the handler,
mapping the parsed message and the optional vector to the persisted
shape; the timestamp is serialized with `toISOString`. -/
def dbRecord (tm : TelegramMessage) (vector : Option (List Scalar)) :
    ConversationRecord :=
  ⟨tm.messageId, tm.text, tm.userId, tm.groupId,
   toISOString tm.timestampMs, vector,
   tm.userName, tm.userFirstName, tm.userLastName⟩

/-- `needle` is a prefix of `hay` (character lists). -/
def charsHavePrefix : List Char → List Char → Bool
  | [], _ => true
  | _ :: _, [] => false
  | a :: as, b :: bs => a == b && charsHavePrefix as bs

/-- `needle` occurs inside `hay` (character lists). -/
def charsIncl (needle : List Char) : List Char → Bool
  | [] => charsHavePrefix needle []
  | c :: rest => charsHavePrefix needle (c :: rest) || charsIncl needle rest

/-- JavaScript `hay.includes(needle)`. -/
def strIncludes (hay needle : String) : Bool :=
  charsIncl needle.data hay.data

/-- Injected outcomes of the three I/O calls one handler run makes. -/
structure IngestEnv where
  privFault : StoreFault
  embedOutcome : BackendOutcome
  insertFault : StoreFault
deriving DecidableEq, Repr

/-- Result of one handler run: the store afterwards, the emitted log
lines, and the collaborator calls in order. -/
structure IngestOut where
  db : Db
  logs : List LogEntry
  effects : List Effect
deriving DecidableEq, Repr

/-- The ingestion `bot.on('message')` handler (api/webhook.ts; the bot.ts
variants differ only in logging).  Skips messages without text, sender or
chat id; consults the Privacy Gate (the webhook variant's inner try/catch
around `isUserOptedOut` can never fire, since `isUserOptedOut` catches
internally); skips persistence entirely for an opted-out sender;
optionally embeds; builds the record with `dbRecord`; inserts via
`insertMessage`, logging via `logger.error` when it returned null.  The
surrounding catch — which would classify a thrown 409/'duplicate' error
as a duplicate and log via `logger.warn` — is translated as the `.error`
arm of the match on `insertMessageE`; the whole body sits in try/catch,
so the handler itself is total and never raises. -/
def ingestHandler (ctx : Ctx) (st : EmbeddingsState) (db : Db)
    (env : IngestEnv) : IngestOut :=
  match ctx.message with
  | none => ⟨db, [⟨.debug, "No text in message, skipping."⟩], []⟩
  | some m =>
    match m.text with
    | none => ⟨db, [⟨.debug, "No text in message, skipping."⟩], []⟩
    | some text =>
      match ctx.fromUser with
      | none => ⟨db, [⟨.debug, "No user in message, skipping."⟩], []⟩
      | some u =>
        let priv := isUserOptedOut db u.id env.privFault
        let logs0 := priv.2
        let eff0 := [Effect.privacyLookup u.id]
        if priv.1 then
          ⟨db, logs0 ++ [⟨.debug, "User is opted out, skipping message."⟩],
           eff0⟩
        else
          match ctx.chatId with
          | none => ⟨db, logs0 ++ [⟨.debug, "No chatId, skipping."⟩], eff0⟩
          | some chatId =>
            let tm := parseTelegramMessage m text u chatId
            let emb :=
              if areEmbeddingsAvailable st then
                let r := generateEmbedding st text env.embedOutcome
                (r.1.embedding, r.2.1, r.2.2)
              else (none, ([] : List LogEntry), ([] : List Effect))
            let record := dbRecord tm emb.1
            let effIns := [Effect.insertCall record]
            match insertMessageE db record env.insertFault with
            | .ok (result, db', lg) =>
              let tailLogs :=
                if result.isNone then
                  [⟨LogLevel.error, "[ASYNC] insertMessage failed for dbRecord:"⟩]
                else []
              ⟨db', logs0 ++ emb.2.1 ++ lg ++ tailLogs,
               eff0 ++ emb.2.2 ++ effIns⟩
            | .error e =>
              let dupLog :=
                if e.code == some "409" || strIncludes e.message "duplicate" then
                  [⟨LogLevel.warn,
                    "[ASYNC] Duplicate message detected, skipping insert:"⟩]
                else
                  [⟨LogLevel.error,
                    "[ASYNC] Unexpected error inserting message:"⟩]
              ⟨db, logs0 ++ emb.2.1 ++ dupLog, eff0 ++ emb.2.2 ++ effIns⟩

/-! ## Claim C1 — duplicate insert handling -/

/-- Concrete inbound update used for the duplicate-delivery scenario:
message 555, text "hello", sender 42, conversation 100. -/
def c1Ctx : Ctx :=
  ⟨some ⟨555, some "hello", 1700000000⟩,
   some ⟨42, some "al", some "Al", none⟩, some 100⟩

/-- Provider-less embeddings state for the C1 scenario. -/
def c1St : EmbeddingsState := ⟨none, none, false, none⟩

/-- Healthy-store environment for the C1 scenario. -/
def c1Env : IngestEnv := ⟨.ok, .missing, .ok⟩

/-- C1: delivering message 555 twice leaves exactly one row with that
message_id and raises no unrecovered error, but — contrary to the claim —
the conflict is never detected as a duplicate nor logged at lower
severity: the second run emits only error-severity log lines (the
client's unique-violation response is swallowed inside `insertMessage` as
a generic insert error, so the webhook's duplicate-classifying catch arm
never executes and no warn-severity line appears). -/
theorem duplicate_insert_logged_as_error_not_detected :
    ((ingestHandler c1Ctx c1St
        (ingestHandler c1Ctx c1St ⟨[], []⟩ c1Env).db c1Env).db.conversations.filter
          (fun r => r.message_id == 555)).length = 1 ∧
    (ingestHandler c1Ctx c1St
        (ingestHandler c1Ctx c1St ⟨[], []⟩ c1Env).db c1Env).logs =
      [⟨.error, "Error inserting message into conversations:"⟩,
       ⟨.error, "[ASYNC] insertMessage failed for dbRecord:"⟩] ∧
    ∀ e ∈ (ingestHandler c1Ctx c1St
        (ingestHandler c1Ctx c1St ⟨[], []⟩ c1Env).db c1Env).logs,
      e.level = .error := by
  decide

/-! ## Claim C2 — opt-out idempotence -/

/-- C2 counterexample: sender 5 already has an opt-out entry; the second
`addUserOptOut` call reports failure (false), refuting the claim that it
still reports success. -/
theorem optOut_second_call_returns_false_counterexample :
    (addUserOptOut ⟨[], [⟨5, "2026-01-01T00:00:00.000Z"⟩]⟩ 5
      "2026-02-01T00:00:00.000Z" .ok).1 = false := by
  decide

/-- C2 amended: for a sender who already has an opt-out entry, a second
`addUserOptOut` call propagates no duplicate-key exception to the caller
and leaves the opt-out table unchanged (so still exactly one entry), but
it returns false — the unique-violation error response is logged at error
severity and reported as failure, not success. -/
theorem optOut_second_call_reports_failure (db : Db) (userId : Int)
    (now : String) (h : ∃ r ∈ db.opt_out_users, r.user_id = userId) :
    (addUserOptOut db userId now .ok).1 = false ∧
    (addUserOptOut db userId now .ok).2.1 = db ∧
    (addUserOptOut db userId now .ok).2.2 =
      [⟨.error, "Error adding user to opt-out list:"⟩] := by
  obtain ⟨r, hr, hru⟩ := h
  have hany : db.opt_out_users.any (fun r => r.user_id == userId) = true := by
    simp only [List.any_eq_true]
    exact ⟨r, hr, by simp [hru]⟩
  simp [addUserOptOut, clientInsertOptOut, hany]

/-- C2 amended, witnessed at sender 5 with one pre-existing entry. -/
theorem optOut_second_call_reports_failure_witness :
    (addUserOptOut ⟨[], [⟨5, "t0"⟩]⟩ 5 "t1" .ok).1 = false ∧
    (addUserOptOut ⟨[], [⟨5, "t0"⟩]⟩ 5 "t1" .ok).2.1 = ⟨[], [⟨5, "t0"⟩]⟩ ∧
    (addUserOptOut ⟨[], [⟨5, "t0"⟩]⟩ 5 "t1" .ok).2.2 =
      [⟨.error, "Error adding user to opt-out list:"⟩] :=
  optOut_second_call_reports_failure ⟨[], [⟨5, "t0"⟩]⟩ 5 "t1"
    ⟨⟨5, "t0"⟩, by decide, rfl⟩

/-! ## Claim C3 — purge return value -/

/-- Store for the C3 scenario: sender 3 owns two rows. -/
def c3Db : Db :=
  ⟨[⟨1, "a", 3, 100, "t1", none, none, none, none⟩,
    ⟨2, "b", 3, 100, "t2", none, none, none, none⟩], []⟩

/-- C3: purging sender 3, who owns two rows, removes both rows — the
subsequent count drops from 2 to 0 — yet the call returns 0, not 2,
because the delete never requests a row count from the client, so the
response's count is null and `count || 0` yields 0.  This contradicts the
claim (and the function's own doc comment) that the number of rows
removed is returned. -/
theorem purge_deletes_rows_but_returns_zero :
    (clearUserMessages c3Db 3 .ok).1 = 0 ∧
    (clearUserMessages c3Db 3 .ok).2.1.conversations = [] ∧
    (getMessageCount c3Db .ok).1 = 2 ∧
    (getMessageCount (clearUserMessages c3Db 3 .ok).2.1 .ok).1 = 0 := by
  decide

/-! ## Claim C4 — fail-open privacy lookup -/

/-- C4: any faulting opt-out lookup — an error response of any code or a
thrown exception, both of which the function absorbs without raising —
returns false (not opted out); and on a healthy lookup the absence of a
row returns false with no log line at all, so absence is not treated as
an error. -/
theorem privacy_lookup_fails_open (db : Db) (userId : Int)
    (fault : StoreFault) :
    (fault ≠ .ok → (isUserOptedOut db userId fault).1 = false) ∧
    (fault = .ok → (∀ r ∈ db.opt_out_users, r.user_id ≠ userId) →
      isUserOptedOut db userId fault = (false, [])) := by
  constructor
  · intro hne
    cases fault with
    | ok => exact absurd rfl hne
    | errResp c m =>
      simp only [isUserOptedOut, clientSelectOptOutSingle]
      split <;> simp
    | thrown m => simp [isUserOptedOut, clientSelectOptOutSingle]
  · rintro rfl habs
    have hfind : db.opt_out_users.find? (fun r => r.user_id == userId) = none := by
      rw [List.find?_eq_none]
      intro r hr
      simpa using habs r hr
    simp [isUserOptedOut, clientSelectOptOutSingle, hfind]

/-- C4 witnessed: a thrown lookup for sender 7 yields false, and a
healthy lookup with no matching row yields false with no log line. -/
theorem privacy_lookup_fails_open_witness :
    (isUserOptedOut ⟨[], []⟩ 7 (.thrown "network down")).1 = false ∧
    isUserOptedOut ⟨[], [⟨9, "t"⟩]⟩ 7 .ok = (false, []) :=
  ⟨(privacy_lookup_fails_open ⟨[], []⟩ 7 (.thrown "network down")).1
      (by decide),
   (privacy_lookup_fails_open ⟨[], [⟨9, "t"⟩]⟩ 7 .ok).2 rfl (by decide)⟩

/-! ## Claim C10 — first-call-wins client initialization -/

/-- C10: once the module-level client is set, every further
`initSupabase` call — whatever its url and key arguments — returns that
same client, leaves the state untouched and constructs nothing, so the
handle is written at most once; and the very first call does construct
and store a client. -/
theorem initSupabase_first_call_wins (c : SupaClient) :
    (∀ url key, initSupabase (some c) url key = ⟨c, some c, false⟩) ∧
    (∀ calls : List (String × String),
      calls.foldl (fun s uk => (initSupabase s uk.1 uk.2).state) (some c) =
        some c) ∧
    (∀ url key, initSupabase none url key =
      ⟨createClient url key, some (createClient url key), true⟩) := by
  refine ⟨fun _ _ => rfl, ?_, fun _ _ => rfl⟩
  intro calls
  induction calls with
  | nil => rfl
  | cons uk rest ih => simpa [initSupabase] using ih

/-! ## Claim C5 — opted-out senders are never persisted -/

/-- C5: whenever the privacy lookup reports the update's sender as opted
out, the handler run performs no insert call at all and leaves the store
untouched — ingestion terminates before persistence. -/
theorem optedOut_sender_never_inserted (ctx : Ctx) (st : EmbeddingsState)
    (db : Db) (env : IngestEnv)
    (h : ∀ u, ctx.fromUser = some u →
      (isUserOptedOut db u.id env.privFault).1 = true) :
    (∀ r, Effect.insertCall r ∉ (ingestHandler ctx st db env).effects) ∧
    (ingestHandler ctx st db env).db = db := by
  cases hm : ctx.message with
  | none => simp [ingestHandler, hm]
  | some m =>
    cases ht : m.text with
    | none => simp [ingestHandler, hm, ht]
    | some text =>
      cases hu : ctx.fromUser with
      | none => simp [ingestHandler, hm, ht, hu]
      | some u =>
        have hopt := h u hu
        simp [ingestHandler, hm, ht, hu, hopt]

/-- C5 witnessed: sender 7 is in the opt-out set and the lookup is
healthy; the run makes no insert call and the store is unchanged. -/
theorem optedOut_sender_never_inserted_witness :
    (∀ r, Effect.insertCall r ∉
      (ingestHandler ⟨some ⟨10, some "hi", 1700000000⟩,
          some ⟨7, none, none, none⟩, some 100⟩
        ⟨none, none, false, none⟩ ⟨[], [⟨7, "t"⟩]⟩
        ⟨.ok, .missing, .ok⟩).effects) ∧
    (ingestHandler ⟨some ⟨10, some "hi", 1700000000⟩,
        some ⟨7, none, none, none⟩, some 100⟩
      ⟨none, none, false, none⟩ ⟨[], [⟨7, "t"⟩]⟩
      ⟨.ok, .missing, .ok⟩).db = ⟨[], [⟨7, "t"⟩]⟩ :=
  optedOut_sender_never_inserted _ _ _ _
    (by intro u hu; injection hu with h; subst h; decide)

/-! ## Claim C6 — provider selection priority -/

/-- C6: `initEmbeddings` (a total function — initialization never raises)
selects providers in priority order: with an OpenAI key and a succeeding
constructor it becomes active on OpenAI having attempted only OpenAI;
when OpenAI is absent or its constructor fails, a Gemini key with a
succeeding constructor makes it active on Gemini; when neither leg
succeeds it ends unavailable with no provider. -/
theorem initEmbeddings_priority_order (okKey gmKey : Option String)
    (okCtor gmCtor : Bool) :
    (∀ k, okKey = some k → okCtor = true →
      (initEmbeddings okKey gmKey okCtor gmCtor).1 =
        ⟨some k, none, true, some .openai⟩ ∧
      (initEmbeddings okKey gmKey okCtor gmCtor).2.2 = [.tryOpenAI]) ∧
    ((okKey = none ∨ okCtor = false) → ∀ k, gmKey = some k → gmCtor = true →
      (initEmbeddings okKey gmKey okCtor gmCtor).1 =
        ⟨none, some k, true, some .gemini⟩) ∧
    ((okKey = none ∨ okCtor = false) → (gmKey = none ∨ gmCtor = false) →
      (initEmbeddings okKey gmKey okCtor gmCtor).1.embeddingsAvailable = false ∧
      (initEmbeddings okKey gmKey okCtor gmCtor).1.embeddingsProvider = none) := by
  refine ⟨?_, ?_, ?_⟩
  · rintro k rfl rfl
    simp [initEmbeddings]
  · rintro hA k rfl rfl
    rcases hA with rfl | rfl
    · simp [initEmbeddings, tryGeminiInit]
    · cases okKey <;> simp [initEmbeddings, tryGeminiInit]
  · rintro hA hB
    rcases hA with rfl | rfl
    · rcases hB with rfl | rfl
      · simp [initEmbeddings, tryGeminiInit]
      · cases gmKey <;> simp [initEmbeddings, tryGeminiInit]
    · rcases hB with rfl | rfl
      · cases okKey <;> simp [initEmbeddings, tryGeminiInit]
      · cases okKey <;> cases gmKey <;> simp [initEmbeddings, tryGeminiInit]

/-- C6 witnessed across the three legs: both keys with OpenAI healthy
selects OpenAI only; OpenAI constructor failure with Gemini healthy
selects Gemini; both constructors failing ends unavailable. -/
theorem initEmbeddings_priority_order_witness :
    ((initEmbeddings (some "okA") (some "okB") true true).1 =
        ⟨some "okA", none, true, some .openai⟩ ∧
      (initEmbeddings (some "okA") (some "okB") true true).2.2 =
        [.tryOpenAI]) ∧
    (initEmbeddings (some "okA") (some "okB") false true).1 =
      ⟨none, some "okB", true, some .gemini⟩ ∧
    ((initEmbeddings (some "okA") (some "okB") false false).1.embeddingsAvailable
        = false ∧
      (initEmbeddings
          (some "okA") (some "okB") false false).1.embeddingsProvider = none) :=
  ⟨(initEmbeddings_priority_order (some "okA") (some "okB") true true).1
      "okA" rfl rfl,
   (initEmbeddings_priority_order (some "okA") (some "okB") false true).2.1
      (Or.inr rfl) "okB" rfl rfl,
   (initEmbeddings_priority_order (some "okA") (some "okB") false false).2.2
      (Or.inr rfl) (Or.inr rfl)⟩

/-! ## Claim C7 — single embed never propagates errors -/

/-- C7: `generateEmbedding` (total — no failure propagates) always
echoes its input text; when no provider is active it returns the absent
embedding immediately with no backend call at all; and whenever the
backend call rejects, or returns a response without an embedding value,
the result degrades to an absent embedding. -/
theorem embed_never_propagates (st : EmbeddingsState) (text : String)
    (outcome : BackendOutcome) :
    ((generateEmbedding st text outcome).1.text = text) ∧
    (st.embeddingsAvailable = false →
      generateEmbedding st text outcome = (⟨text, none⟩, [], [])) ∧
    (∀ m, outcome = .exn m →
      (generateEmbedding st text outcome).1.embedding = none) ∧
    (outcome = .missing →
      (generateEmbedding st text outcome).1.embedding = none) := by
  obtain ⟨oc, gc, av, pr⟩ := st
  cases av <;> rcases pr with _ | p <;>
    first
      | (cases p <;> rcases oc with _ | k <;> rcases gc with _ | k' <;>
          cases outcome <;>
          simp [generateEmbedding, generateOpenAIEmbedding,
            generateGeminiEmbedding])
      | (cases outcome <;>
          simp [generateEmbedding, generateOpenAIEmbedding,
            generateGeminiEmbedding])

/-- C7 witnessed: with no active provider the result is absent and no
call is made; with an active OpenAI provider a rejected call degrades to
an absent embedding. -/
theorem embed_never_propagates_witness :
    generateEmbedding ⟨none, none, false, none⟩ "hi" (.exn "quota") =
      (⟨"hi", none⟩, [], []) ∧
    (generateEmbedding ⟨some "k", none, true, some .openai⟩ "hi"
      (.exn "quota")).1.embedding = none :=
  ⟨(embed_never_propagates ⟨none, none, false, none⟩ "hi"
      (.exn "quota")).2.1 rfl,
   (embed_never_propagates ⟨some "k", none, true, some .openai⟩ "hi"
      (.exn "quota")).2.2.1 "quota" rfl⟩

/-! ## Claim C9 — the Record Builder is pure and deterministic -/

/-- Helper: the effects a single-embed call emits are backend calls only,
never inserts. -/
theorem generateEmbedding_no_insert (st : EmbeddingsState) (text : String)
    (outcome : BackendOutcome) (r : ConversationRecord) :
    Effect.insertCall r ∉ (generateEmbedding st text outcome).2.2 := by
  obtain ⟨oc, gc, av, pr⟩ := st
  cases av <;> rcases pr with _ | p <;>
    first
      | (cases p <;> rcases oc with _ | k <;> rcases gc with _ | k' <;>
          cases outcome <;>
          simp [generateEmbedding, generateOpenAIEmbedding,
            generateGeminiEmbedding])
      | (cases outcome <;>
          simp [generateEmbedding, generateOpenAIEmbedding,
            generateGeminiEmbedding])

/-- C9: the Record Builder `dbRecord` is deterministic — two applications
to identical inputs yield identical records — and side-effect free: it is
a pure function of the parsed message and the optional vector, and every
record any handler run hands to the persistence insert is exactly an
application of it. -/
theorem record_builder_pure_deterministic (tm₁ tm₂ : TelegramMessage)
    (v₁ v₂ : Option (List Scalar)) (hm : tm₁ = tm₂) (hv : v₁ = v₂) :
    dbRecord tm₁ v₁ = dbRecord tm₂ v₂ ∧
    (∀ ctx st db env r,
      Effect.insertCall r ∈ (ingestHandler ctx st db env).effects →
      ∃ tm v, r = dbRecord tm v) := by
  subst hm hv
  refine ⟨rfl, ?_⟩
  intro ctx st db env r hmem
  cases hmsg : ctx.message with
  | none => simp [ingestHandler, hmsg] at hmem
  | some m =>
    cases ht : m.text with
    | none => simp [ingestHandler, hmsg, ht] at hmem
    | some text =>
      cases hu : ctx.fromUser with
      | none => simp [ingestHandler, hmsg, ht, hu] at hmem
      | some u =>
        cases hopt : (isUserOptedOut db u.id env.privFault).1 with
        | true => simp [ingestHandler, hmsg, ht, hu, hopt] at hmem
        | false =>
          cases hc : ctx.chatId with
          | none => simp [ingestHandler, hmsg, ht, hu, hopt, hc] at hmem
          | some chatId =>
            cases hav : areEmbeddingsAvailable st with
            | false =>
              refine ⟨parseTelegramMessage m text u chatId, none, ?_⟩
              simp [ingestHandler, hmsg, ht, hu, hopt, hc, hav,
                insertMessageE] at hmem
              exact hmem
            | true =>
              refine ⟨parseTelegramMessage m text u chatId,
                (generateEmbedding st text env.embedOutcome).1.embedding, ?_⟩
              simp [ingestHandler, hmsg, ht, hu, hopt, hc, hav,
                insertMessageE] at hmem
              rcases hmem with hmem | hmem
              · exact absurd hmem (generateEmbedding_no_insert st text
                  env.embedOutcome r)
              · exact hmem

/-- C9 witnessed at a concrete message and vector pair. -/
theorem record_builder_pure_deterministic_witness :
    dbRecord ⟨1, "hi", 9, 100, 1700000000000, none, some "A", none⟩
        (some [3, 4]) =
      dbRecord ⟨1, "hi", 9, 100, 1700000000000, none, some "A", none⟩
        (some [3, 4]) ∧
    (∀ ctx st db env r,
      Effect.insertCall r ∈ (ingestHandler ctx st db env).effects →
      ∃ tm v, r = dbRecord tm v) :=
  record_builder_pure_deterministic
    ⟨1, "hi", 9, 100, 1700000000000, none, some "A", none⟩
    ⟨1, "hi", 9, 100, 1700000000000, none, some "A", none⟩
    (some [3, 4]) (some [3, 4]) rfl rfl

/-! ## Claim C8 — batch embedding preserves positions -/

/-- Length of the positional map. -/
theorem mapWithIndexGo_length (f : Nat → α → β) (xs : List α) :
    ∀ i, (mapWithIndexGo f i xs).length = xs.length := by
  induction xs with
  | nil => intro i; rfl
  | cons x xs ih => intro i; simp [mapWithIndexGo, ih]

/-- Entry `j` of the positional map started at offset `i`. -/
theorem mapWithIndexGo_getElem? (f : Nat → α → β) (xs : List α) :
    ∀ i j, (mapWithIndexGo f i xs)[j]? = (xs[j]?).map (fun x => f (i + j) x) := by
  induction xs with
  | nil => intro i j; simp [mapWithIndexGo]
  | cons x xs ih =>
    intro i j
    cases j with
    | zero => simp [mapWithIndexGo]
    | succ j =>
      have h : (i + 1) + j = i + (j + 1) := by omega
      simpa [mapWithIndexGo, h] using ih (i + 1) j

/-- Entry `j` of the positional map. -/
theorem mapWithIndex_getElem? (f : Nat → α → β) (xs : List α) (j : Nat) :
    (mapWithIndex f xs)[j]? = (xs[j]?).map (fun x => f j x) := by
  simpa using mapWithIndexGo_getElem? f xs 0 j

/-- The all-absent result list: right length, right texts in place, every
embedding absent. -/
theorem mapNone_facts (texts : List String) :
    ((texts.map (fun t => (⟨t, none⟩ : EmbedResult))).length = texts.length) ∧
    (∀ i : Nat,
      ((texts.map (fun t => (⟨t, none⟩ : EmbedResult)))[i]?).map
        EmbedResult.text = texts[i]?) ∧
    (∀ r ∈ texts.map (fun t => (⟨t, none⟩ : EmbedResult)),
      r.embedding = none) := by
  refine ⟨by simp, ?_, by simp⟩
  intro i
  rw [List.getElem?_map]
  cases texts[i]? <;> simp

/-- C8: `generateBatchEmbeddings` returns one result per input text with
the texts in their original positions, whatever the provider state or
backend behavior; an OpenAI bulk rejection, or a Gemini whole-call
failure, degrades every entry to absent in place; and on a healthy Gemini
call, entry `i` carries exactly the per-item outcome of text `i` — failed
items absent, succeeded items their values, in place. -/
theorem batch_embed_positional (st : EmbeddingsState) (texts : List String)
    (env : BatchEnv) :
    ((generateBatchEmbeddings st texts env).1.length = texts.length) ∧
    (∀ i : Nat, ((generateBatchEmbeddings st texts env).1[i]?).map
      EmbedResult.text = texts[i]?) ∧
    (st.embeddingsProvider = some .openai → ∀ m, env.openaiBatch = .error m →
      ∀ r ∈ (generateBatchEmbeddings st texts env).1, r.embedding = none) ∧
    (st.embeddingsProvider = some .gemini → ∀ m, env.geminiOuterExn = some m →
      ∀ r ∈ (generateBatchEmbeddings st texts env).1, r.embedding = none) ∧
    (st.embeddingsAvailable = true → st.embeddingsProvider = some .gemini →
      (∃ c, st.geminiClient = some c) → env.geminiOuterExn = none →
      ∀ i : Nat, ((generateBatchEmbeddings st texts env).1[i]?).map
        EmbedResult.embedding = (texts[i]?).map env.geminiItem) := by
  obtain ⟨oc, gc, av, pr⟩ := st
  obtain ⟨ob, ge, gi⟩ := env
  obtain ⟨hlen, htext, hnone⟩ := mapNone_facts texts
  cases av with
  | false =>
    refine ⟨hlen, htext, fun _ _ _ => hnone, fun _ _ _ => hnone, ?_⟩
    intro h
    exact absurd h (by simp [generateBatchEmbeddings])
  | true =>
    rcases pr with _ | p
    · exact ⟨hlen, htext, fun h => by simp at h, fun h => by simp at h,
        fun _ h => by simp at h⟩
    cases p with
    | openai =>
      refine ⟨?_, ?_, ?_, fun h => by simp at h, fun _ h => by simp at h⟩
      · rcases oc with _ | k
        · simp [generateBatchEmbeddings, generateBatchOpenAIEmbeddings]
        · rcases ob with m | data <;>
            simp [generateBatchEmbeddings, generateBatchOpenAIEmbeddings,
              mapWithIndexGo_length, mapWithIndex]
      · intro i
        rcases oc with _ | k
        · simpa [generateBatchEmbeddings, generateBatchOpenAIEmbeddings]
            using htext i
        · rcases ob with m | data
          · simpa [generateBatchEmbeddings, generateBatchOpenAIEmbeddings]
              using htext i
          · simp only [generateBatchEmbeddings, generateBatchOpenAIEmbeddings,
              Bool.true_eq_false, if_false, mapWithIndex_getElem?]
            cases texts[i]? <;> simp
      · intro _ m hob
        rcases oc with _ | k
        · intro r hr
          exact hnone r (by
            simpa [generateBatchEmbeddings, generateBatchOpenAIEmbeddings]
              using hr)
        · subst hob
          intro r hr
          exact hnone r (by
            simpa [generateBatchEmbeddings, generateBatchOpenAIEmbeddings]
              using hr)
    | gemini =>
      refine ⟨?_, ?_, fun h => by simp at h, ?_, ?_⟩
      · rcases gc with _ | k
        · simp [generateBatchEmbeddings, generateBatchGeminiEmbeddings]
        · rcases ge with _ | m <;>
            simp [generateBatchEmbeddings, generateBatchGeminiEmbeddings,
              mapWithIndexGo_length, mapWithIndex]
      · intro i
        rcases gc with _ | k
        · simpa [generateBatchEmbeddings, generateBatchGeminiEmbeddings]
            using htext i
        · rcases ge with _ | m
          · simp only [generateBatchEmbeddings, generateBatchGeminiEmbeddings,
              Bool.true_eq_false, if_false, mapWithIndex_getElem?]
            cases texts[i]? <;> simp
          · simpa [generateBatchEmbeddings, generateBatchGeminiEmbeddings]
              using htext i
      · intro _ m hge
        rcases gc with _ | k
        · intro r hr
          exact hnone r (by
            simpa [generateBatchEmbeddings, generateBatchGeminiEmbeddings]
              using hr)
        · subst hge
          intro r hr
          exact hnone r (by
            simpa [generateBatchEmbeddings, generateBatchGeminiEmbeddings]
              using hr)
      · rintro _ _ ⟨c, hc⟩ hge i
        subst hc hge
        simp only [generateBatchEmbeddings, generateBatchGeminiEmbeddings,
          Bool.true_eq_false, if_false, mapWithIndex_getElem?]
        rcases hti : texts[i]? with _ | t
        · simp
        · have : (texts.map gi)[i]? = some (gi t) := by
            rw [List.getElem?_map, hti]; rfl
          simp [this]

/-- C8 witnessed: an active Gemini provider with a healthy whole call,
where the middle of three texts fails per-item, yields three entries with
the texts in order and exactly the middle embedding absent. -/
theorem batch_embed_positional_witness :
    ((generateBatchEmbeddings ⟨none, some "g", true, some .gemini⟩
        ["a", "b", "c"]
        ⟨.ok [], none, fun t => if t = "b" then none else some [7]⟩).1.length
      = 3) ∧
    (∀ i : Nat, (((generateBatchEmbeddings ⟨none, some "g", true, some .gemini⟩
        ["a", "b", "c"]
        ⟨.ok [], none, fun t => if t = "b" then none else some [7]⟩).1[i]?).map
          EmbedResult.text) = ["a", "b", "c"][i]?) ∧
    (∀ i : Nat, (((generateBatchEmbeddings ⟨none, some "g", true, some .gemini⟩
        ["a", "b", "c"]
        ⟨.ok [], none, fun t => if t = "b" then none else some [7]⟩).1[i]?).map
          EmbedResult.embedding) =
      (["a", "b", "c"][i]?).map
        (fun t => if t = "b" then none else some [7])) :=
  ⟨(batch_embed_positional ⟨none, some "g", true, some .gemini⟩
      ["a", "b", "c"]
      ⟨.ok [], none, fun t => if t = "b" then none else some [7]⟩).1,
   (batch_embed_positional ⟨none, some "g", true, some .gemini⟩
      ["a", "b", "c"]
      ⟨.ok [], none, fun t => if t = "b" then none else some [7]⟩).2.1,
   (batch_embed_positional ⟨none, some "g", true, some .gemini⟩
      ["a", "b", "c"]
      ⟨.ok [], none, fun t => if t = "b" then none else some [7]⟩).2.2.2.2
     rfl rfl ⟨"g", rfl⟩ rfl⟩

end Byzved
